import Mathlib

/-!
Verification development for the Spark voice-assistant command pipeline.

Shallow embedding of the core pipeline modules:
  * `nlp/intent_parser.py`   — `IntentType`, `Entity`, `Intent`, `IntentParser.parse`
  * `toc/dispatcher.py`      — `CommandDispatcher.dispatch` and its handlers
  * `ui/controller.py`       — `AssistantController` text/voice processing,
                               conversation history, LLM circuit breaker, `start`
  * `wake_word/detector_sounddevice.py` — detection-loop step, listener
                               notification, `start`

Python floats are modelled as exact fractions (the confidence arithmetic in
the source only ever combines small decimal constants and small integer
ratios, far away from any float-rounding boundary used in a comparison).
External collaborators (AppController / SystemController, the timer manager,
HTTP, the local LLM, the speech-to-text engine) are modelled as explicit
parameters; each call made to one of them is recorded in an event list.
-/

namespace Spark

/-! ## Python string primitives -/

/-- Python whitespace class for `str.strip` and the regex class `\s`. -/
def pySpace (c : Char) : Bool :=
  c = ' ' || c = '\t' || c = '\n' || c = '\r' || c = '\x0b' || c = '\x0c'

/-- Python `str.lower` (inputs here are ASCII). -/
def pyLower (s : List Char) : List Char := s.map Char.toLower

/-- Python `str.strip()`. -/
def pyStrip (s : List Char) : List Char :=
  ((s.dropWhile pySpace).reverse.dropWhile pySpace).reverse

/-- First list is an initial segment of the second. -/
def charsHasPre : List Char → List Char → Bool
  | [], _ => true
  | _ :: _, [] => false
  | a :: as, b :: bs => a = b && charsHasPre as bs

/-- Python substring containment `needle in hay`. -/
def charsHasSub (needle : List Char) : List Char → Bool
  | [] => charsHasPre needle []
  | c :: rest => charsHasPre needle (c :: rest) || charsHasSub needle rest

/-- Substring containment on `String`, `needle in hay` in Python. -/
def strHasSub (needle hay : String) : Bool :=
  charsHasSub needle.toList hay.toList

/-! ## Exact fractions

Python float confidences are modelled as exact fractions with a positive
denominator.  Every denominator built below is a product of positive
numbers (`1`, `2`, `max 1 n`), so the cross-multiplication comparisons are
the true rational comparisons.  Fractions are deliberately not normalized
(all operations are plain integer arithmetic), and `Frac.eqv`/`Frac.le`
compare values. -/

structure Frac where
  num : Int
  den : Nat
  deriving DecidableEq, Repr

/-- Embed a natural number. -/
def Frac.ofNat (n : Nat) : Frac := ⟨n, 1⟩

/-- Addition. -/
def Frac.add (a b : Frac) : Frac := ⟨a.num * b.den + b.num * a.den, a.den * b.den⟩

/-- Division by a positive natural number. -/
def Frac.divNat (a : Frac) (n : Nat) : Frac := ⟨a.num, a.den * n⟩

/-- Value-level `≤` (valid for positive denominators). -/
def Frac.le (a b : Frac) : Bool := a.num * b.den ≤ b.num * a.den

/-- Value-level `<` (valid for positive denominators). -/
def Frac.lt (a b : Frac) : Bool := a.num * b.den < b.num * a.den

/-- Value-level equality (valid for positive denominators). -/
def Frac.eqv (a b : Frac) : Bool := a.num * b.den = b.num * a.den

/-- Python `min` on two floats: the first argument wins ties. -/
def Frac.minF (a b : Frac) : Frac := if Frac.le a b then a else b

/-! ## Intent data model (`nlp/intent_parser.py`) -/

/-- The `IntentType` enum exactly as declared in `nlp/intent_parser.py`.
Note the dispatcher in `toc/dispatcher.py` also refers to members
(`CALCULATE`, `MUTE`, `UNMUTE`, `LOCK_SCREEN`, `PLAY_MEDIA`, `PAUSE_MEDIA`,
`NEXT_TRACK`, `PREVIOUS_TRACK`, `SHUTDOWN` aside) that this enum does not
declare; touching such a member raises `AttributeError` at lookup time. -/
inductive IntentType where
  | OPEN_APP
  | CLOSE_APP
  | SEARCH
  | PLAY_MUSIC
  | SET_TIMER
  | GET_WEATHER
  | GET_TIME
  | VOLUME_UP
  | VOLUME_DOWN
  | SHUTDOWN
  | TAKE_SCREENSHOT
  | UNKNOWN
  deriving DecidableEq, Repr

/-- The `value` string of each enum member. -/
def IntentType.value : IntentType → String
  | .OPEN_APP => "open_app"
  | .CLOSE_APP => "close_app"
  | .SEARCH => "search"
  | .PLAY_MUSIC => "play_music"
  | .SET_TIMER => "set_timer"
  | .GET_WEATHER => "get_weather"
  | .GET_TIME => "get_time"
  | .VOLUME_UP => "volume_up"
  | .VOLUME_DOWN => "volume_down"
  | .SHUTDOWN => "shutdown"
  | .TAKE_SCREENSHOT => "take_screenshot"
  | .UNKNOWN => "unknown"

/-- Python `IntentType(value)` — inverse lookup used by `parse`; the parser only
feeds it keys of its own table, all of which are valid `value`s. -/
def intentTypeOfValue (s : String) : IntentType :=
  if s = "open_app" then .OPEN_APP
  else if s = "close_app" then .CLOSE_APP
  else if s = "search" then .SEARCH
  else if s = "play_music" then .PLAY_MUSIC
  else if s = "set_timer" then .SET_TIMER
  else if s = "get_weather" then .GET_WEATHER
  else if s = "get_time" then .GET_TIME
  else if s = "volume_up" then .VOLUME_UP
  else if s = "volume_down" then .VOLUME_DOWN
  else if s = "shutdown" then .SHUTDOWN
  else if s = "take_screenshot" then .TAKE_SCREENSHOT
  else .UNKNOWN

/-- The `Entity` dataclass. -/
structure Entity where
  type : String
  value : String
  confidence : Frac
  deriving DecidableEq, Repr

/-- The `Intent` dataclass; `text` is the normalized (lowered, stripped) text. -/
structure Intent where
  type : IntentType
  confidence : Frac
  text : List Char
  entities : List Entity
  rawText : String
  deriving DecidableEq, Repr

/-- Python `Intent.get_entity`: first entity of the requested type. -/
def Intent.getEntity (i : Intent) (t : String) : Option Entity :=
  i.entities.find? (fun e => e.type = t)

/-! ## Regex engine

The parser table uses eleven concrete `re.search` patterns built from
literals, alternation `(?:a|b)`, optional `(?:...)?` and `s?`, the classes
`\s+`, `\s*`, `\d+`, and greedy capture `(.+)`.  `Rx` is an AST covering
exactly those constructs; `runRx` enumerates matches in Python backtracking
preference order (leftmost alternative first, greedy repetition longest
first), and `searchRx` scans start offsets left to right like `re.search`. -/

inductive Rx where
  | lit (s : List Char)
  | alt (a b : Rx)
  | seq (a b : Rx)
  | opt (r : Rx)
  | ws1
  | digits1
  | any1
  | grp (i : Nat) (r : Rx)
  deriving Repr

/-- Shorthand for a literal. -/
def lit (s : String) : Rx := Rx.lit s.toList

/-- Candidate lengths for a one-or-more greedy class match: the run of
matching leading characters taken as long as possible first, down to 1. -/
def repCands (p : Char → Bool) (input : List Char) : List Nat :=
  let m := (input.takeWhile p).length
  (List.range m).map (fun j => m - j)

/-- All ways a pattern can match a prefix of the input, in Python
backtracking preference order; each result is the remaining input together
with the participating capture groups (index, captured text). -/
def runRx : Rx → List Char → List (List Char × List (Nat × List Char))
  | .lit s, input =>
      if charsHasPre s input then [(input.drop s.length, [])] else []
  | .alt a b, input => runRx a input ++ runRx b input
  | .seq a b, input =>
      (runRx a input).flatMap (fun pr =>
        (runRx b pr.1).map (fun pr2 => (pr2.1, pr.2 ++ pr2.2)))
  | .opt r, input => runRx r input ++ [(input, [])]
  | .ws1, input =>
      (repCands pySpace input).map (fun k => (input.drop k, []))
  | .digits1, input =>
      (repCands Char.isDigit input).map (fun k => (input.drop k, []))
  | .any1, input =>
      (repCands (fun c => c ≠ '\n') input).map (fun k => (input.drop k, []))
  | .grp i r, input =>
      (runRx r input).map (fun pr =>
        (pr.1, (i, input.take (input.length - pr.1.length)) :: pr.2))

/-- Number of capture groups in a pattern (`match.groups()` length). -/
def rxNumGroups : Rx → Nat
  | .grp _ r => 1 + rxNumGroups r
  | .alt a b => rxNumGroups a + rxNumGroups b
  | .seq a b => rxNumGroups a + rxNumGroups b
  | .opt r => rxNumGroups r
  | _ => 0

/-- Python `re.search`: try each start offset left to right, returning the capture
list of the preferred match at the first offset where the pattern matches. -/
def searchRx (r : Rx) : List Char → Option (List (Nat × List Char))
  | [] => ((runRx r []).head?).map (fun pr => pr.2)
  | c :: t =>
    match (runRx r (c :: t)).head? with
    | some pr => some pr.2
    | none => searchRx r t

/-! ## The intent pattern table (`IntentParser._init_patterns`) -/

/-- One entry of the parser table: keywords, extraction patterns, and the
ordered entity roles the captured groups map to. -/
structure PatternEntry where
  name : String
  keywords : List String
  patterns : List Rx
  entityTypes : List String

/-- The ordered table from `_init_patterns` (a Python 3.7+ dict preserves
insertion order, so iteration order is declaration order). -/
def intentPatterns : List PatternEntry :=
  [ { name := "open_app"
    , keywords := ["open", "launch", "start"]
    , patterns := [Rx.seq (Rx.alt (lit "open") (Rx.alt (lit "launch") (lit "start")))
                     (Rx.seq Rx.ws1 (Rx.grp 1 Rx.any1))]
    , entityTypes := ["app_name"] }
  , { name := "close_app"
    , keywords := ["close", "quit", "exit"]
    , patterns := [Rx.seq (Rx.alt (lit "close") (Rx.alt (lit "quit") (lit "exit")))
                     (Rx.seq Rx.ws1 (Rx.grp 1 Rx.any1))]
    , entityTypes := ["app_name"] }
  , { name := "search"
    , keywords := ["search", "find", "google"]
    , patterns := [Rx.seq (Rx.alt (lit "search") (Rx.alt (lit "find") (lit "google")))
                     (Rx.seq Rx.ws1 (Rx.seq (Rx.opt (Rx.seq (lit "for") Rx.ws1))
                        (Rx.grp 1 Rx.any1)))]
    , entityTypes := ["query"] }
  , { name := "play_music"
    , keywords := ["play", "music"]
    , patterns := [Rx.seq (lit "play") (Rx.seq Rx.ws1 (Rx.grp 1 Rx.any1))]
    , entityTypes := ["song_name"] }
  , { name := "set_timer"
    , keywords := ["timer", "set timer"]
    , patterns := [Rx.seq (lit "timer") (Rx.seq Rx.ws1 (Rx.seq (lit "for")
                     (Rx.seq Rx.ws1 (Rx.seq (Rx.grp 1 Rx.digits1)
                       (Rx.seq (Rx.opt Rx.ws1)
                         (Rx.grp 2 (Rx.alt (Rx.seq (lit "minute") (Rx.opt (lit "s")))
                                           (Rx.seq (lit "second") (Rx.opt (lit "s"))))))))))]
    , entityTypes := ["duration", "unit"] }
  , { name := "get_weather"
    , keywords := ["weather", "temperature"]
    , patterns := [Rx.seq (lit "weather")
                     (Rx.opt (Rx.seq Rx.ws1 (Rx.seq (lit "in")
                        (Rx.seq Rx.ws1 (Rx.grp 1 Rx.any1)))))]
    , entityTypes := ["location"] }
  , { name := "get_time"
    , keywords := ["time", "what time"]
    , patterns := [Rx.seq (Rx.alt (lit "what\x27s") (lit "what is"))
                     (Rx.seq Rx.ws1 (Rx.seq (lit "the") (Rx.seq Rx.ws1 (lit "time"))))]
    , entityTypes := [] }
  , { name := "volume_up"
    , keywords := ["volume up", "louder"]
    , patterns := [Rx.seq (lit "volume") (Rx.seq Rx.ws1 (lit "up"))]
    , entityTypes := [] }
  , { name := "volume_down"
    , keywords := ["volume down", "quieter"]
    , patterns := [Rx.seq (lit "volume") (Rx.seq Rx.ws1 (lit "down"))]
    , entityTypes := [] }
  , { name := "shutdown"
    , keywords := ["shutdown", "shut down"]
    , patterns := [Rx.seq (lit "shut") (Rx.seq (Rx.opt Rx.ws1) (lit "down"))]
    , entityTypes := [] }
  , { name := "take_screenshot"
    , keywords := ["screenshot", "screen capture"]
    , patterns := [Rx.seq (Rx.alt (lit "take") (lit "capture"))
                     (Rx.seq Rx.ws1 (Rx.seq (Rx.opt (Rx.seq (lit "a") Rx.ws1))
                        (lit "screenshot")))]
    , entityTypes := [] }
  ]

/-- Embedding of `IntentParser._check_keywords`: fraction of keywords occurring as
substrings, clamped to 1. -/
def checkKeywords (text : List Char) (keywords : List String) : Frac :=
  let nMatched := (keywords.filter (fun kw => charsHasSub (pyLower kw.toList) text)).length
  Frac.minF (Frac.ofNat 1) ((Frac.ofNat nMatched).divNat (max 1 keywords.length))

/-- Embedding of `IntentParser._extract_entities`: the first pattern that matches sets
confidence 0.9 and builds entities from its participating, nonempty capture
groups mapped positionally onto the declared entity roles. -/
def extractEntities : List Rx → List Char → List String → List Entity × Frac
  | [], _, _ => ([], ⟨0, 1⟩)
  | p :: ps, text, etypes =>
    match searchRx p text with
    | none => extractEntities ps text etypes
    | some caps =>
      let groups := (List.range (rxNumGroups p)).map (fun i => caps.lookup (i + 1))
      let ents := (groups.enum.filterMap (fun pr =>
        match pr.2 with
        | none => none
        | some g =>
          if g = [] then none
          else if h : pr.1 < etypes.length then
            some { type := etypes.get ⟨pr.1, h⟩
                 , value := String.mk (pyStrip g)
                 , confidence := ⟨9, 10⟩ }
          else none))
      (ents, ⟨9, 10⟩)

/-- The scan over the table in `parse`: keep the strictly best-scoring entry
(`total_confidence > best_confidence`), first entry winning ties; entries
with keyword score 0 are skipped (`if keyword_match:` on a float). -/
def scanTable : List PatternEntry → List Char →
    Option String × Frac × List Entity → Option String × Frac × List Entity
  | [], _, acc => acc
  | e :: rest, text, (bi, bc, be) =>
    let km := checkKeywords text e.keywords
    if Frac.eqv km ⟨0, 1⟩ then scanTable rest text (bi, bc, be)
    else
      let (ents, conf) := extractEntities e.patterns text e.entityTypes
      let total := (Frac.add km conf).divNat 2
      if Frac.lt bc total then scanTable rest text (some e.name, total, ents)
      else scanTable rest text (bi, bc, be)

/-- Embedding of `IntentParser.parse`. -/
def parse (text : String) : Intent :=
  if pyStrip text.toList = [] then
    { type := .UNKNOWN, confidence := ⟨0, 1⟩, text := [], entities := [], rawText := text }
  else
    let normalized := pyStrip (pyLower text.toList)
    match scanTable intentPatterns normalized (none, ⟨0, 1⟩, []) with
    | (some name, conf, ents) =>
      { type := intentTypeOfValue name, confidence := conf, text := normalized
      , entities := ents, rawText := text }
    | (none, _, _) =>
      { type := .UNKNOWN, confidence := ⟨0, 1⟩, text := normalized
      , entities := [], rawText := text }

/-! ## Command dispatcher (`toc/dispatcher.py`)

`CommandDispatcher.dispatch` routes an intent through an `if/elif` chain to
a handler.  The chain compares `intent.type` against `IntentType.OPEN_APP`,
`CLOSE_APP`, `SEARCH`, `PLAY_MUSIC`, `SET_TIMER`, `GET_WEATHER`, `GET_TIME`
— and then against `IntentType.CALCULATE`, a member the enum does not
declare.  Evaluating that comparison raises `AttributeError`, which the
`except` block at the bottom of `dispatch` converts into
`{"success": False, "message": "Error executing command: <str(e)>"}`.
Consequently every intent type not among the first seven (in particular
`VOLUME_UP`, `VOLUME_DOWN`, `SHUTDOWN`, `TAKE_SCREENSHOT`, `UNKNOWN`)
takes the exception path and its handler — and the dedicated `UNKNOWN`
branch — is unreachable dead code.

External calls made by handlers are recorded as `PCall` values; the
AppController / SystemController calls are the ActionProvider capability
calls, the timer-manager and HTTP calls are not (`PCall.isProviderCall`).
The result dictionary is modelled by its `success`/`message`/`intent`
keys; the handler-specific extra keys are not referenced by any claim. -/

/-- External calls a dispatch can make. -/
inductive PCall where
  | openApp (name : String)
  | closeApp (name : String)
  | searchWeb (query : String)
  | volumeUp (amount : Nat)
  | volumeDown (amount : Nat)
  | takeScreenshot
  | createTimer (seconds : Int) (name : String)
  | httpWeatherGet (city : String)
  deriving DecidableEq, Repr

/-- ActionProvider capability calls are the AppController / SystemController
calls; the timer manager and the weather HTTP request are other
collaborators. -/
def PCall.isProviderCall : PCall → Bool
  | .createTimer _ _ => false
  | .httpWeatherGet _ => false
  | _ => true

/-- Responses of the external collaborators, as seen by the dispatcher.
`weatherHttp` models the OpenWeatherMap request: `some msg` is a successful
response already rendered to the message string (the float formatting of
external data is folded into the collaborator), `none` is any request
failure or missing temperature. -/
structure Provider where
  openAppOk : String → Bool
  closeAppOk : String → Bool
  searchWebOk : String → Bool
  volumeUpOk : Nat → Bool
  volumeDownOk : Nat → Bool
  screenshotRes : Bool × String
  weatherApiKey : Option String
  weatherHttp : String → Option String
  nowTime : String

/-- Result dictionary of a dispatch (`success`/`message`/`intent` keys). -/
structure DResult where
  success : Bool
  message : String
  intent : String
  deriving DecidableEq, Repr

/-- Python `int(...)` on a string (optional sign and digits). -/
def pyInt (s : String) : Option Int :=
  match pyStrip s.toList with
  | [] => none
  | '-' :: ds =>
    if ds ≠ [] ∧ ds.all Char.isDigit then
      some (-(ds.foldl (fun acc c => 10 * acc + (c.toNat - 48)) 0 : Nat))
    else none
  | '+' :: ds =>
    if ds ≠ [] ∧ ds.all Char.isDigit then
      some (ds.foldl (fun acc c => 10 * acc + (c.toNat - 48)) 0 : Nat)
    else none
  | ds =>
    if ds.all Char.isDigit then
      some (ds.foldl (fun acc c => 10 * acc + (c.toNat - 48)) 0 : Nat)
    else none

/-- Embedding of `CommandDispatcher._handle_open_app`. -/
def handleOpenApp (p : Provider) (i : Intent) : DResult × List PCall :=
  match i.getEntity "app_name" with
  | none => ({ success := false, message := "No app name specified", intent := i.type.value }, [])
  | some e =>
    let ok := p.openAppOk e.value
    ({ success := ok
     , message := if ok then "Opened " ++ e.value else "Failed to open " ++ e.value
     , intent := i.type.value }, [.openApp e.value])

/-- Embedding of `CommandDispatcher._handle_close_app`. -/
def handleCloseApp (p : Provider) (i : Intent) : DResult × List PCall :=
  match i.getEntity "app_name" with
  | none => ({ success := false, message := "No app name specified", intent := i.type.value }, [])
  | some e =>
    let ok := p.closeAppOk e.value
    ({ success := ok
     , message := if ok then "Closed " ++ e.value else "Failed to close " ++ e.value
     , intent := i.type.value }, [.closeApp e.value])

/-- Embedding of `CommandDispatcher._handle_search`. -/
def handleSearch (p : Provider) (i : Intent) : DResult × List PCall :=
  match i.getEntity "query" with
  | none => ({ success := false, message := "No search query specified", intent := i.type.value }, [])
  | some e =>
    let ok := p.searchWebOk e.value
    ({ success := ok
     , message := if ok then "Searched for: " ++ e.value else "Failed to open search"
     , intent := i.type.value }, [.searchWeb e.value])

/-- Embedding of `CommandDispatcher._handle_play_music`: the `song_name` entity is
optional — Spotify is opened either way, so an ActionProvider call is made
even when the entity is missing. -/
def handlePlayMusic (p : Provider) (i : Intent) : DResult × List PCall :=
  match i.getEntity "song_name" with
  | some e =>
    let ok := p.openAppOk "spotify"
    ({ success := ok
     , message := if ok then "Opening Spotify to play " ++ e.value else "Failed to open music player"
     , intent := i.type.value }, [.openApp "spotify"])
  | none =>
    let ok := p.openAppOk "spotify"
    ({ success := ok
     , message := if ok then "Opening Spotify" else "Failed to open music player"
     , intent := i.type.value }, [.openApp "spotify"])

/-- Embedding of `CommandDispatcher._handle_set_timer`: requires both `duration` and
`unit` entities; the timer manager (not the ActionProvider) is called. -/
def handleSetTimer (_p : Provider) (i : Intent) : DResult × List PCall :=
  match i.getEntity "duration", i.getEntity "unit" with
  | some de, some ue =>
    (match pyInt de.value with
     | none => ({ success := false, message := "Invalid timer duration", intent := i.type.value }, [])
     | some duration =>
       let unit := String.mk (pyLower ue.value.toList)
       if strHasSub "minute" unit then
         let seconds := duration * 60
         let unitDisplay := if duration = 1 then "minute" else "minutes"
         let timerName := "Timer_" ++ toString duration ++ "_" ++ unitDisplay
         ({ success := true
          , message := "Timer set for " ++ toString duration ++ " " ++ unitDisplay
          , intent := i.type.value }, [.createTimer seconds timerName])
       else if strHasSub "second" unit then
         let seconds := duration
         let unitDisplay := if duration = 1 then "second" else "seconds"
         let timerName := "Timer_" ++ toString duration ++ "_" ++ unitDisplay
         ({ success := true
          , message := "Timer set for " ++ toString duration ++ " " ++ unitDisplay
          , intent := i.type.value }, [.createTimer seconds timerName])
       else if strHasSub "hour" unit then
         let seconds := duration * 3600
         let unitDisplay := if duration = 1 then "hour" else "hours"
         let timerName := "Timer_" ++ toString duration ++ "_" ++ unitDisplay
         ({ success := true
          , message := "Timer set for " ++ toString duration ++ " " ++ unitDisplay
          , intent := i.type.value }, [.createTimer seconds timerName])
       else
         ({ success := false, message := "Unknown time unit: " ++ unit, intent := i.type.value }, []))
  | _, _ =>
    ({ success := false, message := "Timer duration not specified", intent := i.type.value }, [])

/-- Embedding of `CommandDispatcher._handle_get_weather`: the `location` entity is
optional (defaults to London); without an API key the weather is looked up
via a web search (an ActionProvider call), with one via HTTP (not an
ActionProvider call). -/
def handleGetWeather (p : Provider) (i : Intent) : DResult × List PCall :=
  let city := match i.getEntity "location" with
    | some e => e.value
    | none => "London"
  match p.weatherApiKey with
  | none =>
    let ok := p.searchWebOk ("weather in " ++ city)
    ({ success := ok
     , message := if ok then "Opening weather search for " ++ city else "Failed to get weather"
     , intent := i.type.value }, [.searchWeb ("weather in " ++ city)])
  | some _ =>
    match p.weatherHttp city with
    | some msg =>
      ({ success := true, message := msg, intent := i.type.value }, [.httpWeatherGet city])
    | none =>
      ({ success := false
       , message := "Sorry, I couldn\x27t fetch the weather for " ++ city
       , intent := i.type.value }, [.httpWeatherGet city])

/-- Embedding of `CommandDispatcher._handle_get_time` (reads the clock, no provider call). -/
def handleGetTime (p : Provider) (i : Intent) : DResult × List PCall :=
  ({ success := true, message := "The time is " ++ p.nowTime, intent := i.type.value }, [])

/-- Embedding of `CommandDispatcher._handle_volume_up` — defined in the source, but
unreachable from `dispatch` (see `dispatchInner`). -/
def handleVolumeUp (p : Provider) (i : Intent) : DResult × List PCall :=
  let ok := p.volumeUpOk 10
  ({ success := ok
   , message := if ok then "Volume increased" else "Failed to increase volume"
   , intent := i.type.value }, [.volumeUp 10])

/-- Embedding of `CommandDispatcher._handle_volume_down` — defined in the source, but
unreachable from `dispatch`. -/
def handleVolumeDown (p : Provider) (i : Intent) : DResult × List PCall :=
  let ok := p.volumeDownOk 10
  ({ success := ok
   , message := if ok then "Volume decreased" else "Failed to decrease volume"
   , intent := i.type.value }, [.volumeDown 10])

/-- Embedding of `CommandDispatcher._handle_screenshot` — defined in the source, but
unreachable from `dispatch`. -/
def handleScreenshot (p : Provider) (i : Intent) : DResult × List PCall :=
  let (ok, filepath) := p.screenshotRes
  ({ success := ok
   , message := if ok then "Screenshot saved to " ++ filepath else "Failed to take screenshot"
   , intent := i.type.value }, [.takeScreenshot])

/-- Rendering of `str(AttributeError)` for the undeclared `IntentType.CALCULATE` member
under CPython 3.11+ (older CPythons render just `CALCULATE`; neither
rendering contains the word `understand`). -/
def attrErrMsg : String :=
  "type object \x27IntentType\x27 has no attribute \x27CALCULATE\x27"

/-- The `if/elif` chain of `CommandDispatcher.dispatch`: after the seven
reachable comparisons it evaluates `IntentType.CALCULATE` and raises. -/
def dispatchInner (p : Provider) (i : Intent) : Except String (DResult × List PCall) :=
  match i.type with
  | .OPEN_APP => .ok (handleOpenApp p i)
  | .CLOSE_APP => .ok (handleCloseApp p i)
  | .SEARCH => .ok (handleSearch p i)
  | .PLAY_MUSIC => .ok (handlePlayMusic p i)
  | .SET_TIMER => .ok (handleSetTimer p i)
  | .GET_WEATHER => .ok (handleGetWeather p i)
  | .GET_TIME => .ok (handleGetTime p i)
  | _ => .error attrErrMsg

/-- Embedding of `CommandDispatcher.dispatch`: the `except Exception` block wraps any
escaping exception into a failure result (no call has been made at the
point the `AttributeError` is raised). -/
def dispatch (p : Provider) (i : Intent) : DResult × List PCall :=
  match dispatchInner p i with
  | .ok r => r
  | .error e =>
    ({ success := false, message := "Error executing command: " ++ e, intent := i.type.value }, [])

/-- Entity roles an intent kind declares in the parser table
(`_init_patterns` `entity_types`). -/
def declaredEntityTypes (t : IntentType) : List String :=
  match intentPatterns.find? (fun e => e.name = t.value) with
  | some e => e.entityTypes
  | none => []

/-- A provider stub whose every capability succeeds. -/
def allOkProvider : Provider :=
  { openAppOk := fun _ => true
  , closeAppOk := fun _ => true
  , searchWebOk := fun _ => true
  , volumeUpOk := fun _ => true
  , volumeDownOk := fun _ => true
  , screenshotRes := (true, "screenshot.png")
  , weatherApiKey := none
  , weatherHttp := fun _ => none
  , nowTime := "12:00 PM" }

/-! ## Assistant controller (`ui/controller.py`)

State of a started `AssistantController` as far as text/voice processing is
concerned: the running flag, the conversation history `self._history`
(ordered `(role, content)` pairs), and whether `self._llm` is set (the
`LocalLLMClient` itself is stateless).  The chat collaborator is passed to
each processing step as an explicit outcome: `Except.ok reply` for a reply
string, `Except.error e` for a raised exception rendered by `str(e)`. -/

structure CtrlState where
  running : Bool
  history : List (String × String)
  llm : Bool
  deriving DecidableEq, Repr

/-- Connection-refused classification in `_process_text`:
`"failed to establish a new connection" in str(e).lower()` or
`"actively refused" in str(e).lower()`. -/
def isConnRefused (e : String) : Bool :=
  charsHasSub "failed to establish a new connection".toList (pyLower e.toList) ||
  charsHasSub "actively refused".toList (pyLower e.toList)

/-- The rolling window `self._history[-8:]` sent to the LLM by
`_chat_with_llm` (the system message is prepended separately). -/
def chatWindow (hist : List (String × String)) : List (String × String) :=
  hist.drop (hist.length - 8)

/-- One `AssistantController._process_text` call on a started controller.
Returns the next state and whether the chat collaborator was invoked.
The history gains the user turn, then the assistant turn when a nonempty
dispatch message or chat reply is produced; on a connection-refused chat
error `self._llm` is cleared for the rest of the session, on any other
chat error it is left in place. -/
def processText (p : Provider) (chat : Except String String) (s : CtrlState)
    (text : String) : CtrlState × Bool :=
  if s.running = false then (s, false)
  else
    let s1 := { s with history := s.history ++ [("user", text)] }
    let intent := parse text
    let handled := intent.type ≠ IntentType.UNKNOWN ∧ Frac.le ⟨1, 2⟩ intent.confidence
    if handled then
      let res := (dispatch p intent).1
      let s2 :=
        if res.message = "" then s1
        else { s1 with history := s1.history ++ [("assistant", res.message)] }
      (s2, false)
    else if s.llm then
      match chat with
      | .ok reply =>
        let s2 :=
          if reply = "" then s1
          else { s1 with history := s1.history ++ [("assistant", reply)] }
        (s2, true)
      | .error e =>
        if isConnRefused e then ({ s1 with llm := false }, true)
        else (s1, true)
    else (s1, false)

/-- A sequence of `_process_text` calls; each utterance comes with the
outcome its chat call would have (used only if chat is invoked).  Returns
the final state and the per-utterance chat-invoked flags. -/
def runTexts (p : Provider) : CtrlState → List (String × Except String String) →
    CtrlState × List Bool
  | s, [] => (s, [])
  | s, (t, chat) :: rest =>
    let (s1, called) := processText p chat s t
    let (s2, flags) := runTexts p s1 rest
    (s2, called :: flags)

/-! ## Voice capture with retry (`_process_voice`) -/

/-- The `RecognitionResult` as produced by the speech-to-text collaborator. -/
structure SttRes where
  success : Bool
  text : String
  error : String
  deriving DecidableEq, Repr

/-- The `while attempts <= self.settings.stt_retry_on_failure` loop of
`_process_voice`, with `remaining = retryBound + 1 - attempts` iterations
still allowed and `idx` the number of `listen_once` calls already made.
Returns (calls made, retrying notices emitted, last result).  A success
breaks immediately; between attempts one "trying again" notice is
emitted. -/
def sttRun (stub : Nat → SttRes) : Nat → Nat → Nat × Nat × Option SttRes
  | 0, _ => (0, 0, none)
  | remaining + 1, idx =>
    let res := stub idx
    if res.success then (1, 0, some res)
    else
      match remaining with
      | 0 => (1, 0, some res)
      | r + 1 =>
        let (c, n, fin) := sttRun stub (r + 1) (idx + 1)
        (c + 1, n + 1, fin)

/-- The failure-notice classification of `_process_voice` (substring match
on the lowercased last error). -/
def classifyStt (err : String) : String :=
  let e := pyLower err.toList
  if charsHasSub "network".toList e || charsHasSub "connection".toList e then
    "Could not connect to speech recognition service. Check your internet connection."
  else if charsHasSub "timeout".toList e then
    "Speech recognition timed out. Please try again."
  else if charsHasSub "microphone".toList e || charsHasSub "device".toList e then
    "Microphone not detected. Check your audio device settings."
  else
    "Could not understand audio. Please speak clearly or try typing instead."

/-- Embedding of `AssistantController._process_voice` on a started controller: run the
retry loop, then either emit a classified failure notice (no dispatch) or
hand the successful transcription to `_process_text`.  Returns the next
state, the number of `listen_once` calls, the number of retrying notices,
and the transcription that was processed (if any). -/
def processVoice (p : Provider) (chat : Except String String) (s : CtrlState)
    (stub : Nat → SttRes) (retryBound : Nat) : CtrlState × Nat × Nat × Option String :=
  if s.running = false then (s, 0, 0, none)
  else
    let (calls, notices, fin) := sttRun stub (retryBound + 1) 0
    match fin with
    | none => (s, calls, notices, none)
    | some res =>
      if res.success then
        ((processText p chat s res.text).1, calls, notices, some res.text)
      else (s, calls, notices, none)

/-! ## Wake-word monitor (`wake_word/detector_sounddevice.py`) -/

/-- The `DetectionState` enum. -/
inductive DetectionState where
  | idle
  | listening
  | processing
  | detected
  | error
  deriving DecidableEq, Repr

/-- The `WakeWordEvent` dataclass (`wake_word`, fixed confidence 0.8, timestamp). -/
structure WakeWordEvent where
  wakeWord : String
  confidence : Frac
  timestamp : Int
  deriving DecidableEq, Repr

/-- Embedding of `SoundDeviceWakeWord._check_for_wake_word`: `none` models a chunk with
no recognizable speech (or a recognition error); otherwise the recognized
text is lowered and stripped and the first configured wake word occurring
in it is returned. -/
def checkForWakeWord (wakeWords : List String) (recognized : Option String) : Option String :=
  match recognized with
  | none => none
  | some text =>
    let tl := pyStrip (pyLower text.toList)
    wakeWords.find? (fun w => charsHasSub (pyLower w.toList) tl)

/-- One iteration of `SoundDeviceWakeWord._detection_loop` after the chunk
has been captured: move to PROCESSING, test for a wake word; on a hit move
to DETECTED, build one event, notify listeners, cool down; either way end
the iteration back in LISTENING.  Returns the events emitted this
iteration and the state the loop is left in. -/
def detectionStep (wakeWords : List String) (recognized : Option String)
    (ts : Int) : List WakeWordEvent × DetectionState :=
  match checkForWakeWord wakeWords recognized with
  | some w => ([{ wakeWord := w, confidence := ⟨8, 10⟩, timestamp := ts }], .listening)
  | none => ([], .listening)

/-! ## Listener notification (`_notify_listeners`)

Both `SoundDeviceWakeWord._notify_listeners` and
`WakeWordDetector._notify_listeners` iterate the registered listeners in
order and wrap each call in its own `try/except`.  A listener is modelled
by an id (recorded when it is invoked) and the outcome of its call. -/

structure WListener where
  id : Nat
  outcome : Except String Unit

/-- Invoking one listener: it runs (its id is recorded) and then either
returns or raises. -/
def invokeListener (l : WListener) : List Nat × Except String Unit :=
  ([l.id], l.outcome)

/-- The notification loop: each listener call is wrapped in `try/except`,
so an error is logged and the loop continues with the next listener. -/
def notifyListeners : List WListener → List Nat
  | [] => []
  | l :: rest =>
    let (calls, res) := invokeListener l
    (match res with
     | .ok _ => calls
     | .error _ => calls) ++ notifyListeners rest

/-! ## Lifecycle: `start` on a running instance -/

/-- Observable state of `SoundDeviceWakeWord` for `start`: the running
flag, the detection state, whether `self.recognizer` was initialized, and
how many background detection threads have been launched. -/
structure WakeState where
  isRunning : Bool
  state : DetectionState
  recognizerOk : Bool
  threadsStarted : Nat
  deriving DecidableEq, Repr

/-- Embedding of `SoundDeviceWakeWord.start`: an already-running detector returns True
immediately; otherwise a missing recognizer fails, and otherwise one
background detection thread is launched and the state moves to
LISTENING. -/
def wakeStart (s : WakeState) : Bool × WakeState :=
  if s.isRunning then (true, s)
  else if s.recognizerOk = false then (false, s)
  else
    let launched := { s with isRunning := true, state := DetectionState.listening, threadsStarted := s.threadsStarted + 1 }
    (true, launched)

/-- Lifecycle state of `AssistantController` for `start`: the
mutex-guarded running flag and how many times the collaborators
(dispatcher, parser, STT) have been constructed. -/
structure CtrlLife where
  running : Bool
  initCount : Nat
  deriving DecidableEq, Repr

/-- Embedding of `AssistantController.start`: under the lock, an already-running
controller returns True with nothing else done; otherwise the running flag
is set and the collaborators are constructed (`initOk` models whether that
initialization raises), with the flag rolled back on failure. -/
def ctrlStart (initOk : Bool) (s : CtrlLife) : Bool × CtrlLife :=
  if s.running then (true, s)
  else if initOk then (true, { s with running := true, initCount := s.initCount + 1 })
  else (false, { s with running := false })

/-! ## Sample inputs used by witnesses and counterexamples -/

/-- An UNKNOWN intent, as produced by parsing unrecognized text. -/
def unknownIntent : Intent :=
  { type := .UNKNOWN, confidence := ⟨0, 1⟩, text := "xyzzy".toList
  , entities := [], rawText := "xyzzy" }

/-- A PLAY_MUSIC intent with no entities at all (in particular no
`song_name`). -/
def musicNoSongIntent : Intent :=
  { type := .PLAY_MUSIC, confidence := ⟨7, 10⟩, text := "play".toList
  , entities := [], rawText := "play" }

/-- An OPEN_APP intent missing its required `app_name` entity. -/
def openNoEntityIntent : Intent :=
  { type := .OPEN_APP, confidence := ⟨7, 10⟩, text := "open".toList
  , entities := [], rawText := "open" }

/-- A freshly started controller: running, empty history, LLM enabled. -/
def startedCtrl : CtrlState := { running := true, history := [], llm := true }

/-- A connection-refused-class chat error string (the `requests` rendering
of a refused connection to the local LLM server). -/
def connErrStr : String :=
  "HTTPConnectionPool(host=localhost, port=11434): Failed to establish a new connection"

/-- Five dispatchable utterances (each appends a user and an assistant
turn to the history). -/
def fiveOpens : List (String × Except String String) :=
  [("open chrome", .ok "hi"), ("open chrome", .ok "hi"), ("open chrome", .ok "hi"),
   ("open chrome", .ok "hi"), ("open chrome", .ok "hi")]

/-- A transcriber stub that fails once (timeout) and then succeeds. -/
def failOnceStub (i : Nat) : SttRes :=
  if i = 0 then { success := false, text := "", error := "timeout" }
  else { success := true, text := "open chrome", error := "" }

/-! ## Helper lemmas -/

/-- With the LLM disabled, `_process_text` never invokes chat and leaves
the LLM disabled and the running flag unchanged. -/
theorem processText_llm_off (p : Provider) (chat : Except String String)
    (s : CtrlState) (t : String) (h : s.llm = false) :
    (processText p chat s t).2 = false ∧
    (processText p chat s t).1.llm = false ∧
    (processText p chat s t).1.running = s.running := by
  simp only [processText, h]
  split
  · exact ⟨rfl, h, rfl⟩
  · split
    · split <;> exact ⟨rfl, rfl, rfl⟩
    · exact ⟨rfl, rfl, rfl⟩

/-- With the LLM disabled, a whole sequence of `_process_text` calls never
invokes chat. -/
theorem runTexts_llm_off (p : Provider) :
    ∀ (us : List (String × Except String String)) (s : CtrlState),
      s.llm = false →
      ((runTexts p s us).2.all (fun b => b = false) = true ∧
       (runTexts p s us).1.llm = false)
  | [], s, h => by simpa [runTexts] using h
  | (t, chat) :: rest, s, h => by
    have hstep := processText_llm_off p chat s t h
    have hrec := runTexts_llm_off p rest (processText p chat s t).1 hstep.2.1
    simp only [runTexts]
    constructor
    · rw [List.all_cons, hstep.1]
      show (true && _) = true
      rw [Bool.true_and]
      exact hrec.1
    · exact hrec.2

/-! ## Claim theorems -/

/-- C7: `parse "open chrome"` classifies as OPEN_APP with exactly one
entity `app_name = "chrome"` and confidence `(1/3 + 9/10)/2 = 37/60`,
which is at least `1/2`. -/
theorem c7_parse_open_chrome :
    (parse "open chrome").type = IntentType.OPEN_APP ∧
    (parse "open chrome").entities = [⟨"app_name", "chrome", ⟨9, 10⟩⟩] ∧
    Frac.le ⟨1, 2⟩ (parse "open chrome").confidence = true ∧
    Frac.eqv (parse "open chrome").confidence ⟨37, 60⟩ = true := by decide

/-- C9: notifying listeners invokes every registered listener exactly once
in registration order; because each call sits in its own `try/except`, the
invocation sequence is the full id list no matter which listeners raise. -/
theorem c9_notify_all_listeners (ls : List WListener) :
    notifyListeners ls = ls.map (fun l => l.id) := by
  induction ls with
  | nil => rfl
  | cons l rest ih =>
    unfold notifyListeners invokeListener
    cases l.outcome <;> simp [ih]

/-- C10: calling `start()` on an already-running wake-word detector or an
already-running controller returns True and leaves the state — including
the count of launched background threads and of collaborator
initializations — exactly unchanged. -/
theorem c10_start_idempotent (ws : WakeState) (cs : CtrlLife) (initOk : Bool)
    (hw : ws.isRunning = true) (hc : cs.running = true) :
    wakeStart ws = (true, ws) ∧ ctrlStart initOk cs = (true, cs) := by
  constructor
  · unfold wakeStart
    simp [hw]
  · unfold ctrlStart
    simp [hc]

/-- C10 witness: a running detector and controller. -/
theorem c10_start_idempotent_witness :
    wakeStart ⟨true, .listening, true, 1⟩ = (true, ⟨true, .listening, true, 1⟩) ∧
    ctrlStart true ⟨true, 1⟩ = (true, ⟨true, 1⟩) :=
  c10_start_idempotent ⟨true, .listening, true, 1⟩ ⟨true, 1⟩ true rfl rfl

/-- C1: dispatching an UNKNOWN intent returns success=False and makes no
ActionProvider call, but the message is the wrapped `AttributeError` from
the undeclared `IntentType.CALCULATE` member — evaluated before the
`UNKNOWN` branch of the chain — rather than the "I didn\x27t understand
that command" text of that (unreachable) branch, so the message contains
no "understand" phrase. -/
theorem c1_unknown_dispatch_error_wrap (p : Provider) (i : Intent)
    (h : i.type = IntentType.UNKNOWN) :
    (dispatch p i).1.success = false ∧
    (dispatch p i).2 = [] ∧
    (dispatch p i).1.message = "Error executing command: " ++ attrErrMsg ∧
    strHasSub "understand" (dispatch p i).1.message = false := by
  have hd : dispatch p i =
      ({ success := false, message := "Error executing command: " ++ attrErrMsg
       , intent := i.type.value }, []) := by
    unfold dispatch dispatchInner
    rw [h]
  rw [hd]
  refine ⟨rfl, rfl, rfl, ?_⟩
  show strHasSub "understand" ("Error executing command: " ++ attrErrMsg) = false
  decide

/-- C1 witness: a concrete UNKNOWN intent. -/
theorem c1_unknown_dispatch_error_wrap_witness :
    (dispatch allOkProvider unknownIntent).1.success = false ∧
    (dispatch allOkProvider unknownIntent).2 = [] ∧
    (dispatch allOkProvider unknownIntent).1.message = "Error executing command: " ++ attrErrMsg ∧
    strHasSub "understand" (dispatch allOkProvider unknownIntent).1.message = false :=
  c1_unknown_dispatch_error_wrap allOkProvider unknownIntent rfl

/-- C2: a VOLUME_UP intent has a registered handler
(`_handle_volume_up`, which makes exactly one SystemController call), yet
`dispatch` makes zero ActionProvider calls on it: the elif chain raises
`AttributeError` at the `IntentType.CALCULATE` comparison before the
volume branch is reached, and the exception wrapper returns a failure. -/
theorem c2_volume_up_dispatch_makes_no_call (p : Provider) :
    (parse "volume up").type = IntentType.VOLUME_UP ∧
    (dispatch p (parse "volume up")).2 = [] ∧
    (dispatch p (parse "volume up")).1.success = false ∧
    (dispatch p (parse "volume up")).1.message = "Error executing command: " ++ attrErrMsg ∧
    (handleVolumeUp p (parse "volume up")).2 = [PCall.volumeUp 10] := by
  have ht : (parse "volume up").type = IntentType.VOLUME_UP := by decide
  have hd : dispatch p (parse "volume up") =
      ({ success := false, message := "Error executing command: " ++ attrErrMsg
       , intent := (parse "volume up").type.value }, []) := by
    unfold dispatch dispatchInner
    rw [ht]
  rw [hd]
  exact ⟨ht, rfl, rfl, rfl, rfl⟩

/-- C3 counterexample: PLAY_MUSIC declares the entity role `song_name` in
the parser table, yet dispatching a PLAY_MUSIC intent with no entities at
all still makes an ActionProvider call (`open_app("spotify")`) and can
even succeed — refuting "success=false and no ActionProvider call" for
intents missing a declared entity. -/
theorem c3_missing_entity_counterexample :
    declaredEntityTypes IntentType.PLAY_MUSIC = ["song_name"] ∧
    musicNoSongIntent.getEntity "song_name" = none ∧
    (dispatch allOkProvider musicNoSongIntent).1.success = true ∧
    (dispatch allOkProvider musicNoSongIntent).2 = [PCall.openApp "spotify"] := by
  decide

/-- C3 amended: for the intent kinds whose handlers do require their
declared entities — OPEN_APP and CLOSE_APP (`app_name`), SEARCH (`query`),
SET_TIMER (`duration`, `unit`) — a dispatch with the entity missing
returns success=False and makes no external call; PLAY_MUSIC and
GET_WEATHER treat their declared entity as optional instead. -/
theorem c3_required_entity_missing_fails (p : Provider) (i : Intent)
    (h : ((i.type = IntentType.OPEN_APP ∨ i.type = IntentType.CLOSE_APP) ∧
            i.getEntity "app_name" = none) ∨
         (i.type = IntentType.SEARCH ∧ i.getEntity "query" = none) ∨
         (i.type = IntentType.SET_TIMER ∧
            (i.getEntity "duration" = none ∨ i.getEntity "unit" = none))) :
    (dispatch p i).1.success = false ∧ (dispatch p i).2 = [] := by
  rcases h with ⟨ht | ht, he⟩ | ⟨ht, he⟩ | ⟨ht, he | he⟩
  · simp [dispatch, dispatchInner, handleOpenApp, ht, he]
  · simp [dispatch, dispatchInner, handleCloseApp, ht, he]
  · simp [dispatch, dispatchInner, handleSearch, ht, he]
  · cases hu : i.getEntity "unit" <;>
      simp [dispatch, dispatchInner, handleSetTimer, ht, he, hu]
  · cases hd : i.getEntity "duration" <;>
      simp [dispatch, dispatchInner, handleSetTimer, ht, he, hd]

/-- C3 amended witness: OPEN_APP with no `app_name` entity. -/
theorem c3_required_entity_missing_fails_witness :
    (dispatch allOkProvider openNoEntityIntent).1.success = false ∧
    (dispatch allOkProvider openNoEntityIntent).2 = [] :=
  c3_required_entity_missing_fails allOkProvider openNoEntityIntent
    (Or.inl ⟨Or.inl rfl, rfl⟩)

/-- C4 counterexample: after five dispatched utterances (each appending a
user and an assistant turn) the controller-owned stored history holds 10
turns — more than 8 — because `_process_text` only ever appends to
`self._history` and nothing truncates it. -/
theorem c4_history_unbounded_counterexample :
    (runTexts allOkProvider startedCtrl fiveOpens).1.history.length = 10 ∧
    ¬ (runTexts allOkProvider startedCtrl fiveOpens).1.history.length ≤ 8 := by
  decide

/-- C4 amended: the stored conversation history only ever grows (every
`_process_text` call appends the new turns to the existing history — it is
never truncated), and the boundedness lives one level down: the window
passed to the chat collaborator, `self._history[-8:]`, always holds at
most the 8 most recent turns. -/
theorem c4_history_append_only_window_bounded (p : Provider)
    (chat : Except String String) (s : CtrlState) (t : String) :
    (∃ suffix, (processText p chat s t).1.history = s.history ++ suffix) ∧
    (chatWindow s.history).length ≤ 8 := by
  constructor
  · by_cases hr : s.running = false
    · exact ⟨[], by simp [processText, hr]⟩
    · by_cases hh : ((parse t).type ≠ IntentType.UNKNOWN ∧
        Frac.le ⟨1, 2⟩ (parse t).confidence = true)
      · by_cases hm : (dispatch p (parse t)).1.message = ""
        · exact ⟨[("user", t)], by simp [processText, hr, hh, hm]⟩
        · exact ⟨[("user", t), ("assistant", (dispatch p (parse t)).1.message)],
            by simp [processText, hr, hh, hm]⟩
      · by_cases hl : s.llm = true
        · cases chat with
          | ok reply =>
            by_cases hrep : reply = ""
            · exact ⟨[("user", t)], by simp [processText, hr, hh, hl, hrep]⟩
            · exact ⟨[("user", t), ("assistant", reply)],
                by simp [processText, hr, hh, hl, hrep]⟩
          | error e =>
            by_cases hc : isConnRefused e = true
            · exact ⟨[("user", t)], by simp [processText, hr, hh, hl, hc]⟩
            · exact ⟨[("user", t)], by simp [processText, hr, hh, hl, hc]⟩
        · exact ⟨[("user", t)], by simp [processText, hr, hh, hl]⟩
  · unfold chatWindow
    rw [List.length_drop]
    omega

/-- C8: when the transcribed chunk contains the configured trigger phrase
"hey assistant" (the head of the configured wake-word list), one detection
iteration emits exactly one event, its `wake_word` field is
"hey assistant" with the fixed 0.8 confidence, and the loop ends the
iteration back in LISTENING. -/
theorem c8_wake_word_single_event (t : String) (ts : Int)
    (h : charsHasSub "hey assistant".toList (pyStrip (pyLower t.toList)) = true) :
    detectionStep ["hey assistant", "computer"] (some t) ts =
      ([{ wakeWord := "hey assistant", confidence := ⟨8, 10⟩, timestamp := ts }],
        DetectionState.listening) := by
  have hp : (fun w : String => charsHasSub (pyLower w.toList) (pyStrip (pyLower t.toList)))
      "hey assistant" = true := by
    show charsHasSub (pyLower "hey assistant".toList) (pyStrip (pyLower t.toList)) = true
    rw [show pyLower "hey assistant".toList = "hey assistant".toList from by decide]
    exact h
  have hf : checkForWakeWord ["hey assistant", "computer"] (some t) = some "hey assistant" := by
    unfold checkForWakeWord
    exact List.find?_cons_of_pos _ hp
  unfold detectionStep
  rw [hf]

/-- C8 witness: the chunk "hey assistant open chrome". -/
theorem c8_wake_word_single_event_witness :
    detectionStep ["hey assistant", "computer"] (some "hey assistant open chrome") 0 =
      ([{ wakeWord := "hey assistant", confidence := ⟨8, 10⟩, timestamp := 0 }],
        DetectionState.listening) :=
  c8_wake_word_single_event "hey assistant open chrome" 0 (by decide)

/-- C5: if an utterance falls back to chat and the chat collaborator raises
a connection-refused-class error, then no utterance processed later in the
same session invokes chat again (the LLM handle is cleared and nothing
ever re-enables it); a non-connection chat error leaves chat enabled. -/
theorem c5_chat_circuit_breaker (p : Provider) (s : CtrlState) (t e : String)
    (hcall : (processText p (.error e) s t).2 = true) :
    (isConnRefused e = true →
      ∀ us, ((runTexts p (processText p (.error e) s t).1 us).2.all
        (fun b => b = false)) = true) ∧
    (isConnRefused e = false →
      (processText p (.error e) s t).1.llm = s.llm ∧ s.llm = true) := by
  by_cases hr : s.running = false
  · simp [processText, hr] at hcall
  · by_cases hh : ((parse t).type ≠ IntentType.UNKNOWN ∧
        Frac.le ⟨1, 2⟩ (parse t).confidence = true)
    · simp [processText, hr, hh] at hcall
    · by_cases hl : s.llm = true
      · constructor
        · intro hc us
          have hstate : (processText p (.error e) s t).1.llm = false := by
            simp [processText, hr, hh, hl, hc]
          exact (runTexts_llm_off p us _ hstate).1
        · intro hc
          refine ⟨?_, hl⟩
          simp [processText, hr, hh, hl, hc]
      · simp [processText, hr, hh, hl] at hcall

/-- C5 witness: after a connection-refused chat error on "xyzzy", two more
utterances are processed without a single chat invocation. -/
theorem c5_chat_circuit_breaker_witness :
    ((runTexts allOkProvider
        (processText allOkProvider (.error connErrStr) startedCtrl "xyzzy").1
        [("xyzzy", Except.ok "hi"), ("weather riddle", Except.ok "hi")]).2.all
      (fun b => b = false)) = true :=
  (c5_chat_circuit_breaker allOkProvider startedCtrl "xyzzy" connErrStr (by decide)).1
    (by decide) [("xyzzy", Except.ok "hi"), ("weather riddle", Except.ok "hi")]

/-- Helper for C6: if the transcriber stub fails on its first `N - 1` calls
and succeeds on call `N` (1-based), and at least `N` iterations are still
allowed, the retry loop makes exactly `N` calls, emits `N - 1` retrying
notices, and ends on the successful result. -/
theorem sttRun_first_success (stub : Nat → SttRes) :
    ∀ (N rem idx : Nat), 1 ≤ N → N ≤ rem →
      (∀ i, i + 1 < N → (stub (idx + i)).success = false) →
      (stub (idx + (N - 1))).success = true →
      sttRun stub rem idx = (N, N - 1, some (stub (idx + (N - 1)))) := by
  intro N
  induction N with
  | zero => intro rem idx h1; omega
  | succ n ih =>
    intro rem idx h1 h2 hf hs
    obtain ⟨r, rfl⟩ : ∃ r, rem = r + 1 := ⟨rem - 1, by omega⟩
    by_cases hn : n = 0
    · subst hn
      have hs0 : (stub idx).success = true := by simpa using hs
      unfold sttRun
      rw [if_pos hs0]
      simp
    · have hn1 : 1 ≤ n := by omega
      have hf0 : (stub idx).success = false := by simpa using hf 0 (by omega)
      obtain ⟨r2, rfl⟩ : ∃ r2, r = r2 + 1 := ⟨r - 1, by omega⟩
      have hrec := ih (r2 + 1) (idx + 1) hn1 (by omega)
        (fun i hi => by
          have := hf (i + 1) (by omega)
          rwa [show idx + (i + 1) = idx + 1 + i from by omega] at this)
        (by rwa [show idx + 1 + (n - 1) = idx + (n + 1 - 1) from by omega])
      unfold sttRun
      rw [if_neg (by simp [hf0])]
      show (match sttRun stub (r2 + 1) (idx + 1) with
            | (c, nn, fin) => (c + 1, nn + 1, fin)) =
        (n + 1, n + 1 - 1, some (stub (idx + (n + 1 - 1))))
      rw [hrec]
      have e1 : n - 1 + 1 = n := by omega
      have e2 : idx + 1 + (n - 1) = idx + (n + 1 - 1) := by omega
      simp [e1, e2]

/-- C6: with a started controller, a transcriber stub failing on attempts
1..N-1 and succeeding on attempt N, and N within the retry budget
(`retryBound + 1` total attempts), a voice command makes exactly N
`listen_once` calls, emits N-1 retrying notices in between, and hands the
successful transcription on to text processing — in particular no call is
made after the first success. -/
theorem c6_transcriber_retry (p : Provider) (chat : Except String String)
    (s : CtrlState) (stub : Nat → SttRes) (retryBound N : Nat)
    (hrun : s.running = true)
    (h1 : 1 ≤ N) (h2 : N ≤ retryBound + 1)
    (hf : ∀ i, i + 1 < N → (stub i).success = false)
    (hs : (stub (N - 1)).success = true) :
    (processVoice p chat s stub retryBound).2.1 = N ∧
    (processVoice p chat s stub retryBound).2.2.1 = N - 1 ∧
    (processVoice p chat s stub retryBound).2.2.2 = some (stub (N - 1)).text := by
  have hrr := sttRun_first_success stub N (retryBound + 1) 0 h1 h2
    (fun i hi => by simpa using hf i hi) (by simpa using hs)
  simp only [Nat.zero_add] at hrr
  simp [processVoice, hrun, hrr, hs]

/-- C6 witness: retry bound 1, failure then success — exactly 2 calls, one
retrying notice, and the second transcription is processed. -/
theorem c6_transcriber_retry_witness :
    (processVoice allOkProvider (Except.ok "hi") startedCtrl failOnceStub 1).2.1 = 2 ∧
    (processVoice allOkProvider (Except.ok "hi") startedCtrl failOnceStub 1).2.2.1 = 1 ∧
    (processVoice allOkProvider (Except.ok "hi") startedCtrl failOnceStub 1).2.2.2 =
      some (failOnceStub 1).text :=
  c6_transcriber_retry allOkProvider (Except.ok "hi") startedCtrl failOnceStub 1 2 rfl
    (by omega) (by omega)
    (fun i hi => by
      have hz : i = 0 := by omega
      subst hz
      decide)
    (by decide)

end Spark
